import Mathlib

/-!
Verification of the CampusKart backend's listing-lifecycle and cart model.

The definitions below are a shallow embedding of the current generation of
`src/storage.js` (the `MongoStorage` class with secret keys, status sorting
and disabled deletion), the route handlers of the current routes file
(`mark-sold`, cart routes), and — for the deletion-enabled alternate mode —
the earlier generation of `storage.js`/`routes.js` that performs deletion.
The Mongo document store is modelled as a list of documents; each storage
method takes an `err : Bool` flag standing for "the underlying store call
threw", mirroring the `try`/`catch` blocks of the source.
-/

namespace CampusKart

/-- A JSON-ish value, enough to model the field values of the objects the
routes serialize (`images` is always an array of URL strings). -/
inductive JsValue where
  | str (s : String)
  | num (n : Int)
  | arr (xs : List String)
  | date (t : Nat)
  | null
deriving DecidableEq

/-- The shape of `insertProductSchema.parse`'s output (current-generation
`shared/schema.js`): all the create fields, including the optional
`status`, `secretKey` and `soldAt` fields the zod schema declares.
`condition` and `status` carry their zod defaults after parsing. -/
structure InsertInput where
  title : String
  description : String
  price : Int
  category : String
  images : List String
  sellerName : String
  contactMethod : String
  contactDetails : String
  condition : String
  status : String
  secretKey : Option String
  soldAt : Option Nat
deriving DecidableEq

/-- A persisted product document (mongoose `ProductModel`), with the
store-assigned `id` and `createdAt` (timestamps) and the private
`secretKey`. -/
structure ProductDoc where
  id : Nat
  title : String
  description : String
  price : Int
  category : String
  images : List String
  sellerName : String
  contactMethod : String
  contactDetails : String
  condition : String
  createdAt : Nat
  status : String
  secretKey : String
  soldAt : Option Nat
deriving DecidableEq

/-- The external projection built by `MongoStorage.toProduct`: every field of
the document except `secretKey`. -/
structure Product where
  id : Nat
  title : String
  description : String
  price : Int
  category : String
  images : List String
  sellerName : String
  contactMethod : String
  contactDetails : String
  condition : String
  createdAt : Nat
  status : String
  soldAt : Option Nat
deriving DecidableEq

/-- `MongoStorage.toProduct` (storage.js): copies the public fields,
defaulting a falsy (empty) `status` to `"available"` and passing `soldAt`
through (`doc.soldAt || null`); `secretKey` is deliberately not copied. -/
def MongoStorage.toProduct (doc : ProductDoc) : Product :=
  { id := doc.id
    title := doc.title
    description := doc.description
    price := doc.price
    category := doc.category
    images := doc.images
    sellerName := doc.sellerName
    contactMethod := doc.contactMethod
    contactDetails := doc.contactDetails
    condition := doc.condition
    createdAt := doc.createdAt
    status := if doc.status = "" then "available" else doc.status
    soldAt := doc.soldAt }

/-- The key/value pairs of the JSON object `toProduct` returns, in source
order. This is the serialized form the routes send to clients. -/
def productFields (p : Product) : List (String × JsValue) :=
  [("id", .str (toString p.id)),
   ("title", .str p.title),
   ("description", .str p.description),
   ("price", .num p.price),
   ("category", .str p.category),
   ("images", .arr p.images),
   ("sellerName", .str p.sellerName),
   ("contactMethod", .str p.contactMethod),
   ("contactDetails", .str p.contactDetails),
   ("condition", .str p.condition),
   ("createdAt", .date p.createdAt),
   ("status", .str p.status),
   ("soldAt", match p.soldAt with | some t => .date t | none => .null)]

/-- The product collection. -/
abbrev Store := List ProductDoc

/-- `ProductModel.findById`: the document with the given id, if any. -/
def findDoc (store : Store) (id : Nat) : Option ProductDoc :=
  store.find? (fun d => d.id == id)

/-- `document.save()` / `findByIdAndUpdate`: write the (mutated) document
back over the stored document with the same id. -/
def saveDoc (store : Store) (doc : ProductDoc) : Store :=
  store.map (fun d => if d.id == doc.id then doc else d)

/-- Byte-order comparison on character lists, modelling the store's string
comparison used for the ascending `status` sort key. -/
def ltChars : List Char → List Char → Bool
  | [], [] => false
  | [], _ :: _ => true
  | _ :: _, [] => false
  | a :: as, b :: bs => if a < b then true else if b < a then false else ltChars as bs

/-- String comparison on the underlying character data. -/
def strLtB (a b : String) : Bool := ltChars a.data b.data

/-- The sort key of `find().sort(\x7b status: 1, createdAt: -1 \x7d)`:
ascending by `status`, then descending by `createdAt`. -/
def productSortLE (a b : ProductDoc) : Bool :=
  strLtB a.status b.status ||
    (a.status == b.status && decide (b.createdAt ≤ a.createdAt))

/-- `MongoStorage.getAllProducts`: every document, sorted by status then
newest first, projected through `toProduct`. -/
def MongoStorage.getAllProducts (store : Store) : List Product :=
  (store.mergeSort productSortLE).map MongoStorage.toProduct

/-- `MongoStorage.getProductById`: projection of the document, or none. -/
def MongoStorage.getProductById (store : Store) (id : Nat) : Option Product :=
  (findDoc store id).map MongoStorage.toProduct

/-- `MongoStorage.getProductsByCategory`: documents of one category, same
sort and projection as `getAllProducts`. -/
def MongoStorage.getProductsByCategory (store : Store) (category : String) : List Product :=
  ((store.filter (fun d => d.category == category)).mergeSort productSortLE).map
    MongoStorage.toProduct

/-- `MongoStorage.createProduct`: on a store error the catch block rethrows
`"Failed to create product"`. Otherwise it spreads the validated input,
overrides `secretKey` with the freshly generated secret and `status` with
`"available"` (note: the input's `soldAt` is spread through untouched), and
returns the safe projection plus the secret, once. The fresh secret and the
store-assigned id and timestamp are parameters here. -/
def MongoStorage.createProduct (err : Bool) (store : Store) (input : InsertInput)
    (freshSecret : String) (now : Nat) (newId : Nat) :
    Except String (List (String × JsValue) × Store) :=
  if err then .error "Failed to create product"
  else
    let doc : ProductDoc :=
      { id := newId
        title := input.title
        description := input.description
        price := input.price
        category := input.category
        images := input.images
        sellerName := input.sellerName
        contactMethod := input.contactMethod
        contactDetails := input.contactDetails
        condition := input.condition
        createdAt := now
        status := "available"
        secretKey := freshSecret
        soldAt := input.soldAt }
    .ok (productFields (MongoStorage.toProduct doc) ++ [("secretKey", .str freshSecret)],
         store ++ [doc])

/-- The shape of `insertProductSchema.partial().parse`'s output: every field
of the create schema, each optional — including `status`, `secretKey` and
`soldAt`, which the zod schema declares. -/
structure UpdateInput where
  title : Option String := none
  description : Option String := none
  price : Option Int := none
  category : Option String := none
  images : Option (List String) := none
  sellerName : Option String := none
  contactMethod : Option String := none
  contactDetails : Option String := none
  condition : Option String := none
  status : Option String := none
  secretKey : Option String := none
  soldAt : Option Nat := none
deriving DecidableEq

/-- The effect of `findByIdAndUpdate(id, \x7b ...updateData \x7d)`: each field
present in the update data replaces the stored field; absent fields keep
their stored values. `id` and `createdAt` are not part of the update data. -/
def applyUpdate (doc : ProductDoc) (u : UpdateInput) : ProductDoc :=
  { doc with
    title := u.title.getD doc.title
    description := u.description.getD doc.description
    price := u.price.getD doc.price
    category := u.category.getD doc.category
    images := u.images.getD doc.images
    sellerName := u.sellerName.getD doc.sellerName
    contactMethod := u.contactMethod.getD doc.contactMethod
    contactDetails := u.contactDetails.getD doc.contactDetails
    condition := u.condition.getD doc.condition
    status := u.status.getD doc.status
    secretKey := u.secretKey.getD doc.secretKey
    soldAt := match u.soldAt with | some t => some t | none => doc.soldAt }

/-- `MongoStorage.updateProduct`: a store error is caught and turned into
`undefined` (`none`), the same value returned for a missing id. -/
def MongoStorage.updateProduct (err : Bool) (store : Store) (id : Nat) (u : UpdateInput) :
    Option Product × Store :=
  if err then (none, store)
  else
    match findDoc store id with
    | none => (none, store)
    | some doc =>
      let doc2 := applyUpdate doc u
      (some (MongoStorage.toProduct doc2), saveDoc store doc2)

/-- Outcome of `PATCH /api/products/:id` after validation: the route maps a
`none` from the storage layer to the not-found response. -/
inductive UpdateRouteResult where
  | notFound
  | ok (p : Product)
deriving DecidableEq

/-- The `PATCH /api/products/:id` handler over already-validated input. -/
def updateProductRoute (err : Bool) (store : Store) (id : Nat) (u : UpdateInput) :
    UpdateRouteResult × Store :=
  match MongoStorage.updateProduct err store id u with
  | (none, s) => (.notFound, s)
  | (some p, s) => (.ok p, s)

/-- Outcome of `POST /api/products/:id/mark-sold`. -/
inductive MarkSoldResult where
  | badRequest
  | notFound
  | forbidden
  | ok (p : Product)
  | serverError
deriving DecidableEq

/-- The `mark-sold` handler: reject a falsy (empty) secret with 400 before
any store call, then fetch the document (with its secret), 404 when
missing, 403 on a strict inequality of secrets, otherwise set `status` and
`soldAt`, save, and return the safe projection. The surrounding try/catch
turns a store error — which can only arise once the required-key check has
passed — into a 500. -/
def markSold (err : Bool) (store : Store) (id : Nat) (secretKey : String) (now : Nat) :
    MarkSoldResult × Store :=
  if secretKey = "" then (.badRequest, store)
  else if err then (.serverError, store)
  else
    match findDoc store id with
    | none => (.notFound, store)
    | some product =>
      if product.secretKey ≠ secretKey then (.forbidden, store)
      else
        let sold := { product with status := "sold", soldAt := some now }
        (.ok (MongoStorage.toProduct sold), saveDoc store sold)

/-- The deletion-enabled generation of `MongoStorage.deleteProduct`: it
ignores the supplied key entirely — `findByIdAndDelete` removes the
document whenever the id exists; the catch returns `false`. -/
def MongoStorage.deleteProductEnabled (err : Bool) (store : Store) (id : Nat) :
    Bool × Store :=
  if err then (false, store)
  else
    match findDoc store id with
    | none => (false, store)
    | some _ => (true, store.filter (fun d => !(d.id == id)))

/-- Outcome of `DELETE /api/products/:id`. -/
inductive DeleteRouteResult where
  | badRequest
  | forbidden
  | noContent
deriving DecidableEq

/-- The deletion-enabled generation of the DELETE route: 400 on a falsy key,
403 when the storage layer reports `false`, 204 otherwise. -/
def deleteRouteEnabled (err : Bool) (store : Store) (id : Nat) (deleteKey : String) :
    DeleteRouteResult × Store :=
  if deleteKey = "" then (.badRequest, store)
  else
    match MongoStorage.deleteProductEnabled err store id with
    | (false, s) => (.forbidden, s)
    | (true, s) => (.noContent, s)

/-- The current generation of `MongoStorage.deleteProduct`: unconditionally
reports failure and touches nothing. -/
def MongoStorage.deleteProductDisabled (store : Store) (_id : Nat) (_secretKey : String) :
    Bool × Store :=
  (false, store)

/-- The current generation of the DELETE route: it answers 403 without even
calling the storage layer. -/
def deleteRouteDisabled (store : Store) (_id : Nat) : DeleteRouteResult × Store :=
  (.forbidden, store)

/-- One cart line item, as the cart routes build them. -/
structure CartItem where
  productId : String
  quantity : Nat
deriving DecidableEq

/-- A session cart, as the cart routes create and mutate them. -/
structure Cart where
  sessionId : String
  products : List CartItem
deriving DecidableEq

/-- The cart collection. -/
abbrev CartStore := List Cart

/-- `Cart.findOne(\x7b sessionId \x7d)`. -/
def findCart (store : CartStore) (sid : String) : Option Cart :=
  store.find? (fun c => c.sessionId == sid)

/-- `cart.save()`: write the mutated cart back over the stored cart(s) of
its session. -/
def saveCart (store : CartStore) (c : Cart) : CartStore :=
  store.map (fun d => if d.sessionId == c.sessionId then c else d)

/-- The `GET /api/cart/:sessionId` handler: return the session's cart,
inserting a fresh empty one first when none exists. -/
def getOrCreateCart (store : CartStore) (sid : String) : Cart × CartStore :=
  match findCart store sid with
  | some c => (c, store)
  | none => (⟨sid, []⟩, store ++ [⟨sid, []⟩])

/-- Increment the quantity of the first item matching the product id
(`existing.quantity += 1` after `products.find`). -/
def incFirst : List CartItem → String → List CartItem
  | [], _ => []
  | i :: rest, pid =>
    if i.productId == pid then { i with quantity := i.quantity + 1 } :: rest
    else i :: incFirst rest pid

/-- The merge-or-append step of the add-to-cart route: bump the existing
line item when present, otherwise push `\x7b productId, quantity: 1 \x7d`. -/
def addToProducts (ps : List CartItem) (pid : String) : List CartItem :=
  if ps.any (fun i => i.productId == pid) then incFirst ps pid
  else ps ++ [⟨pid, 1⟩]

/-- Outcome of `POST /api/cart/:sessionId`. -/
inductive CartAddResult where
  | badRequest
  | created (c : Cart)
deriving DecidableEq

/-- The add-to-cart handler: 400 on a falsy product id; otherwise fetch or
create the cart, merge or append the item, save, and answer 201 with the
updated cart. -/
def addItemRoute (store : CartStore) (sid pid : String) : CartAddResult × CartStore :=
  if pid = "" then (.badRequest, store)
  else
    match getOrCreateCart store sid with
    | (cart, store1) =>
      let cart2 : Cart := { cart with products := addToProducts cart.products pid }
      (.created cart2, saveCart store1 cart2)

/-- Outcome of `DELETE /api/cart/:sessionId/:productId`. -/
inductive CartRemoveResult where
  | notFound
  | ok (c : Cart)
deriving DecidableEq

/-- The remove-from-cart handler: 404 when the session has no cart,
otherwise filter out every item of that product id, save, and return the
updated cart. -/
def removeItemRoute (store : CartStore) (sid pid : String) : CartRemoveResult × CartStore :=
  match findCart store sid with
  | none => (.notFound, store)
  | some cart =>
    let cart2 : Cart := { cart with products := cart.products.filter (fun i => !(i.productId == pid)) }
    (.ok cart2, saveCart store cart2)

/-- Outcome of `POST /api/cart/:sessionId` including the possibility that a
store call throws: the handler has no try/catch, so the raw exception
escapes — no response of the route's own is produced. -/
inductive CartAddOutcome where
  | uncaughtError
  | response (r : CartAddResult) (s : CartStore)
deriving DecidableEq

/-- The add-to-cart handler with an error flag on its store calls. The
falsy-product-id 400 fires before the first store call (`Cart.findOne`),
so a store error can only arise after it; with no try/catch around the
handler body, such an error escapes uncaught. -/
def addItemRouteE (err : Bool) (store : CartStore) (sid pid : String) : CartAddOutcome :=
  if pid = "" then .response .badRequest store
  else if err then .uncaughtError
  else
    match addItemRoute store sid pid with
    | (r, s) => .response r s

/-- Outcome of `DELETE /api/cart/:sessionId/:productId` including an
escaping store error, as for `CartAddOutcome`. -/
inductive CartRemoveOutcome where
  | uncaughtError
  | response (r : CartRemoveResult) (s : CartStore)
deriving DecidableEq

/-- The remove-from-cart handler with an error flag on its store calls: the
handler starts with `Cart.findOne`, so a store error can arise at once and,
with no try/catch, escapes uncaught. -/
def removeItemRouteE (err : Bool) (store : CartStore) (sid pid : String) : CartRemoveOutcome :=
  if err then .uncaughtError
  else
    match removeItemRoute store sid pid with
    | (r, s) => .response r s

/-- The product ids of a cart's items. -/
def cartKeys (ps : List CartItem) : List String := ps.map (fun i => i.productId)

/-- A concrete validated create input, for witnesses. -/
def sampleInput : InsertInput :=
  { title := "Calc Textbook"
    description := "Used calculus textbook"
    price := 20
    category := "textbooks"
    images := []
    sellerName := "Sam"
    contactMethod := "email"
    contactDetails := "sam at campus dot edu"
    condition := "good"
    status := "available"
    secretKey := none
    soldAt := none }

/-- A concrete available listing, for witnesses and counterexamples. -/
def sampleDoc : ProductDoc :=
  { id := 1
    title := "Calc Textbook"
    description := "Used calculus textbook"
    price := 20
    category := "textbooks"
    images := []
    sellerName := "Sam"
    contactMethod := "email"
    contactDetails := "sam at campus dot edu"
    condition := "good"
    createdAt := 10
    status := "available"
    secretKey := "a1b2c3d4e5f6"
    soldAt := none }

/-- A concrete sold listing, for witnesses. -/
def sampleDoc2 : ProductDoc :=
  { id := 2
    title := "Desk Lamp"
    description := "LED desk lamp"
    price := 8
    category := "dorm-items"
    images := []
    sellerName := "Alex"
    contactMethod := "phone"
    contactDetails := "555-0101"
    condition := "like-new"
    createdAt := 20
    status := "sold"
    secretKey := "ffff00001111"
    soldAt := some 30 }

/-- A concrete two-listing store. -/
def sampleStore : Store := [sampleDoc, sampleDoc2]

/-- A partial update that only sets `status`. -/
def statusOnlyUpdate : UpdateInput := { status := some "sold" }

/-- The empty partial update. -/
def emptyUpdate : UpdateInput := {}

/-- A concrete cart store with one two-item cart. -/
def sampleCartStore : CartStore := [⟨"s1", [⟨"p1", 1⟩, ⟨"p2", 3⟩]⟩]

theorem ltChars_irrefl : ∀ a : List Char, ltChars a a = false
  | [] => rfl
  | x :: xs => by simp [ltChars, lt_irrefl, ltChars_irrefl xs]

theorem ltChars_trans : ∀ a b c : List Char,
    ltChars a b = true → ltChars b c = true → ltChars a c = true
  | [], [], _, h1, _ => by simp [ltChars] at h1
  | [], _ :: _, [], _, h2 => by simp [ltChars] at h2
  | [], _ :: _, _ :: _, _, _ => by simp [ltChars]
  | _ :: _, [], _, h1, _ => by simp [ltChars] at h1
  | _ :: _, _ :: _, [], _, h2 => by simp [ltChars] at h2
  | a :: as, b :: bs, c :: cs, h1, h2 => by
    simp only [ltChars] at h1 h2 ⊢
    by_cases hab : a < b
    · by_cases hbc : b < c
      · simp [lt_trans hab hbc]
      · by_cases hcb : c < b
        · simp [hbc, hcb] at h2
        · have hbc2 : b = c := le_antisymm (not_lt.mp hcb) (not_lt.mp hbc)
          subst hbc2
          simp [hab]
    · by_cases hba : b < a
      · simp [hab, hba] at h1
      · have hab2 : a = b := le_antisymm (not_lt.mp hba) (not_lt.mp hab)
        subst hab2
        simp only [lt_irrefl, if_false] at h1
        by_cases hac : a < c
        · simp [hac]
        · by_cases hca : c < a
          · simp [hac, hca] at h2
          · have hac2 : a = c := le_antisymm (not_lt.mp hca) (not_lt.mp hac)
            subst hac2
            simp only [lt_irrefl, if_false] at h2 ⊢
            exact ltChars_trans as bs cs h1 h2

theorem ltChars_trichotomy : ∀ a b : List Char,
    a = b ∨ ltChars a b = true ∨ ltChars b a = true
  | [], [] => Or.inl rfl
  | [], _ :: _ => Or.inr (Or.inl rfl)
  | _ :: _, [] => Or.inr (Or.inr rfl)
  | a :: as, b :: bs => by
    by_cases hab : a < b
    · exact Or.inr (Or.inl (by simp [ltChars, hab]))
    · by_cases hba : b < a
      · exact Or.inr (Or.inr (by simp [ltChars, hba]))
      · have h : a = b := le_antisymm (not_lt.mp hba) (not_lt.mp hab)
        subst h
        rcases ltChars_trichotomy as bs with h | h | h
        · exact Or.inl (by rw [h])
        · exact Or.inr (Or.inl (by simp [ltChars, lt_irrefl, h]))
        · exact Or.inr (Or.inr (by simp [ltChars, lt_irrefl, h]))

theorem strLtB_irrefl (a : String) : strLtB a a = false :=
  ltChars_irrefl a.data

theorem strLtB_trans (a b c : String) (h1 : strLtB a b = true) (h2 : strLtB b c = true) :
    strLtB a c = true :=
  ltChars_trans a.data b.data c.data h1 h2

theorem strLtB_trichotomy (a b : String) :
    a = b ∨ strLtB a b = true ∨ strLtB b a = true := by
  rcases ltChars_trichotomy a.data b.data with h | h | h
  · left
    cases a
    cases b
    exact congrArg String.mk h
  · exact Or.inr (Or.inl h)
  · exact Or.inr (Or.inr h)

theorem productSortLE_trans (a b c : ProductDoc)
    (h1 : productSortLE a b = true) (h2 : productSortLE b c = true) :
    productSortLE a c = true := by
  unfold productSortLE at h1 h2 ⊢
  simp only [Bool.or_eq_true, Bool.and_eq_true, beq_iff_eq, decide_eq_true_eq] at h1 h2 ⊢
  rcases h1 with hlt1 | ⟨heq1, hle1⟩
  · rcases h2 with hlt2 | ⟨heq2, hle2⟩
    · exact Or.inl (strLtB_trans _ _ _ hlt1 hlt2)
    · exact Or.inl (heq2 ▸ hlt1)
  · rcases h2 with hlt2 | ⟨heq2, hle2⟩
    · exact Or.inl (heq1 ▸ hlt2)
    · exact Or.inr ⟨heq1.trans heq2, le_trans hle2 hle1⟩

theorem productSortLE_total (a b : ProductDoc) :
    (productSortLE a b || productSortLE b a) = true := by
  unfold productSortLE
  simp only [Bool.or_eq_true, Bool.and_eq_true, beq_iff_eq, decide_eq_true_eq]
  rcases strLtB_trichotomy a.status b.status with heq | hlt | hgt
  · rcases Nat.le_total b.createdAt a.createdAt with hle | hle
    · exact Or.inl (Or.inr ⟨heq, hle⟩)
    · exact Or.inr (Or.inr ⟨heq.symm, hle⟩)
  · exact Or.inl (Or.inl hlt)
  · exact Or.inr (Or.inl hgt)

/-- The spec's ordering contract between two projections: an available one
never comes after a sold one, and within one status group the later
creation time comes first. -/
def availableBeforeSold (a b : Product) : Prop :=
  (a.status = "available" ∨ b.status = "sold")
  ∧ (a.status = b.status → b.createdAt ≤ a.createdAt)

theorem toProduct_status_of_two (a : ProductDoc)
    (ha : a.status = "available" ∨ a.status = "sold") :
    (MongoStorage.toProduct a).status = a.status := by
  rcases ha with h | h <;> simp [MongoStorage.toProduct, h]

theorem sorted_pair_step (a b : ProductDoc)
    (ha : a.status = "available" ∨ a.status = "sold")
    (hb : b.status = "available" ∨ b.status = "sold")
    (hle : productSortLE a b = true) :
    availableBeforeSold (MongoStorage.toProduct a) (MongoStorage.toProduct b) := by
  have hsa := toProduct_status_of_two a ha
  have hsb := toProduct_status_of_two b hb
  have hca : (MongoStorage.toProduct a).createdAt = a.createdAt := rfl
  have hcb : (MongoStorage.toProduct b).createdAt = b.createdAt := rfl
  constructor
  · rw [hsa, hsb]
    rcases ha with h1 | h1
    · exact Or.inl h1
    · rcases hb with h2 | h2
      · exfalso
        unfold productSortLE at hle
        rw [h1, h2] at hle
        have e1 : strLtB "sold" "available" = false := by decide
        have e2 : (("sold" : String) == "available") = false := by decide
        rw [e1, e2] at hle
        simp at hle
      · exact Or.inr h2
  · intro heq
    rw [hsa, hsb] at heq
    rw [hca, hcb]
    unfold productSortLE at hle
    simp only [Bool.or_eq_true, Bool.and_eq_true, beq_iff_eq, decide_eq_true_eq] at hle
    rcases hle with hlt | hand
    · exfalso
      rw [heq] at hlt
      rw [strLtB_irrefl] at hlt
      exact Bool.false_ne_true hlt
    · exact hand.2

theorem pairwise_sorted_map (l : List ProductDoc)
    (hstatus : ∀ d ∈ l, d.status = "available" ∨ d.status = "sold") :
    ((l.mergeSort productSortLE).map MongoStorage.toProduct).Pairwise availableBeforeSold := by
  have hs : (l.mergeSort productSortLE).Pairwise (fun a b => productSortLE a b = true) :=
    List.sorted_mergeSort productSortLE_trans productSortLE_total l
  have hmem : ∀ d ∈ l.mergeSort productSortLE,
      d.status = "available" ∨ d.status = "sold" := by
    intro d hd
    exact hstatus d ((List.mergeSort_perm l productSortLE).subset hd)
  have hs2 : (l.mergeSort productSortLE).Pairwise
      (fun a b => availableBeforeSold (MongoStorage.toProduct a) (MongoStorage.toProduct b)) := by
    refine hs.imp_of_mem ?_
    intro a b hamem hbmem hab
    exact sorted_pair_step a b (hmem a hamem) (hmem b hbmem) hab
  exact hs2.map _ (fun a b h => h)

/-- C4: for any set of stored Listings whose statuses are the two legal
values, List — both the unfiltered form and the category-filtered form —
returns every available Listing before every sold one, and within each
status group the Listings are ordered newest `createdAt` first. -/
theorem list_sort_order (store : Store)
    (hstatus : ∀ d ∈ store, d.status = "available" ∨ d.status = "sold") :
    (MongoStorage.getAllProducts store).Pairwise availableBeforeSold
    ∧ ∀ cat, (MongoStorage.getProductsByCategory store cat).Pairwise availableBeforeSold := by
  constructor
  · exact pairwise_sorted_map store hstatus
  · intro cat
    refine pairwise_sorted_map _ ?_
    intro d hd
    exact hstatus d (List.mem_of_mem_filter hd)

/-- C4 witness: the sort-order contract evaluated on the concrete
two-listing store with mixed statuses. -/
theorem list_sort_order_witness :
    (MongoStorage.getAllProducts sampleStore).Pairwise availableBeforeSold
    ∧ ∀ cat, (MongoStorage.getProductsByCategory sampleStore cat).Pairwise availableBeforeSold :=
  list_sort_order sampleStore (by decide)

theorem keys_productFields (p : Product) :
    (productFields p).map Prod.fst =
      ["id", "title", "description", "price", "category", "images", "sellerName",
       "contactMethod", "contactDetails", "condition", "createdAt", "status", "soldAt"] :=
  rfl

/-- C1: no projection — the shape returned by List, GetById and Update —
ever carries a `secretKey` field, while the Create return value carries it
exactly once, alongside the secret-free projection. -/
theorem secret_never_leaks :
    (∀ p : Product, "secretKey" ∉ (productFields p).map Prod.fst)
    ∧ (∀ store id p, MongoStorage.getProductById store id = some p →
        "secretKey" ∉ (productFields p).map Prod.fst)
    ∧ (∀ store, ∀ p ∈ MongoStorage.getAllProducts store,
        "secretKey" ∉ (productFields p).map Prod.fst)
    ∧ (∀ err store id u p store2,
        MongoStorage.updateProduct err store id u = (some p, store2) →
        "secretKey" ∉ (productFields p).map Prod.fst)
    ∧ (∀ store input freshSecret now newId fs store2,
        MongoStorage.createProduct false store input freshSecret now newId = .ok (fs, store2) →
        (fs.map Prod.fst).count "secretKey" = 1) := by
  have hnone : ∀ p : Product, "secretKey" ∉ (productFields p).map Prod.fst := by
    intro p h
    rw [keys_productFields] at h
    exact absurd h (by decide)
  refine ⟨hnone, fun _ _ p _ => hnone p, fun _ p _ => hnone p, fun _ _ _ _ p _ _ => hnone p, ?_⟩
  intro store input freshSecret now newId fs store2 h
  unfold MongoStorage.createProduct at h
  simp only [Bool.false_eq_true, if_false, Except.ok.injEq, Prod.mk.injEq] at h
  rw [← h.1]
  rw [List.map_append, List.count_append, keys_productFields]
  simp only [List.map_cons, List.map_nil]
  decide

/-- C2 counterexample: the empty supplied secret differs from the stored
secret of an existing listing, yet MarkSold answers BadRequest, not the
Forbidden the claim requires for every mismatching secret. -/
theorem markSold_empty_secret_counterexample :
    findDoc sampleStore 1 = some sampleDoc
    ∧ ("" : String) ≠ sampleDoc.secretKey
    ∧ (markSold false sampleStore 1 "" 99).fst = MarkSoldResult.badRequest
    ∧ (markSold false sampleStore 1 "" 99).fst ≠ MarkSoldResult.forbidden := by
  decide

/-- C2 amended: for an existing Listing, MarkSold rejects an empty supplied
secret as BadRequest before any comparison; every nonempty supplied secret
not byte-equal to the stored secret fails with Forbidden; and the exact
stored secret (when nonempty, as every minted secret is) succeeds: the
saved document and the returned projection have status sold and soldAt
set. -/
theorem markSold_auth (store : Store) (id : Nat) (key : String) (now : Nat)
    (doc : ProductDoc) (hfind : findDoc store id = some doc) :
    (key = "" → markSold false store id key now = (.badRequest, store))
    ∧ (key ≠ "" → key ≠ doc.secretKey →
        markSold false store id key now = (.forbidden, store))
    ∧ (key ≠ "" → key = doc.secretKey →
        markSold false store id key now =
          (.ok (MongoStorage.toProduct { doc with status := "sold", soldAt := some now }),
           saveDoc store { doc with status := "sold", soldAt := some now })
        ∧ (MongoStorage.toProduct { doc with status := "sold", soldAt := some now }).status
            = "sold"
        ∧ (MongoStorage.toProduct { doc with status := "sold", soldAt := some now }).soldAt
            = some now) := by
  refine ⟨?_, ?_, ?_⟩
  · intro hk
    simp [markSold, hk]
  · intro hk hne
    simp only [markSold, Bool.false_eq_true, if_false, if_neg hk, hfind]
    rw [if_pos (fun h => hne h.symm)]
  · intro hk heq
    refine ⟨?_, by simp [MongoStorage.toProduct], rfl⟩
    simp only [markSold, Bool.false_eq_true, if_false, if_neg hk, hfind]
    rw [if_neg (fun h => h heq.symm)]

/-- C2 amended witness: the two authorization branches evaluated on the
concrete store — a wrong nonempty key is Forbidden, the stored key marks
the listing sold. -/
theorem markSold_auth_witness :
    markSold false sampleStore 1 "wrongwrongwr" 99 = (.forbidden, sampleStore)
    ∧ (markSold false sampleStore 1 "a1b2c3d4e5f6" 99).fst
        = .ok (MongoStorage.toProduct { sampleDoc with status := "sold", soldAt := some 99 }) := by
  have h1 := markSold_auth sampleStore 1 "wrongwrongwr" 99 sampleDoc rfl
  have h2 := markSold_auth sampleStore 1 "a1b2c3d4e5f6" 99 sampleDoc rfl
  refine ⟨h1.2.1 (by decide) (by decide), ?_⟩
  rw [(h2.2.2 (by decide) rfl).1]

/-- C10: a MarkSold call whose supplied secret differs from the stored one
(including the empty-secret case) writes nothing: the store after the call
is the store before it. -/
theorem markSold_mismatch_no_write (store : Store) (id : Nat) (key : String) (now : Nat)
    (doc : ProductDoc) (hfind : findDoc store id = some doc)
    (hne : key ≠ doc.secretKey) :
    (markSold false store id key now).snd = store := by
  by_cases hk : key = ""
  · simp [markSold, hk]
  · simp only [markSold, Bool.false_eq_true, if_false, if_neg hk, hfind]
    rw [if_pos (fun h => hne h.symm)]

/-- C10 witness: the failed MarkSold on the concrete store leaves the store
untouched. -/
theorem markSold_mismatch_no_write_witness :
    (markSold false sampleStore 1 "wrongwrongwr" 99).snd = sampleStore :=
  markSold_mismatch_no_write sampleStore 1 "wrongwrongwr" 99 sampleDoc rfl (by decide)

/-- C3 counterexample: a partial update carrying only `status` flips the
stored listing from available to sold, so `status` is settable through
Update. -/
theorem update_sets_status_counterexample :
    sampleDoc.status = "available"
    ∧ (MongoStorage.updateProduct false sampleStore 1 statusOnlyUpdate).snd
        = [{ sampleDoc with status := "sold" }, sampleDoc2]
    ∧ ({ sampleDoc with status := "sold" } : ProductDoc).status ≠ sampleDoc.status := by
  decide

/-- C3 amended: Update applies exactly the fields present in the validated
partial input. Because the validation schema declares `status`, `secretKey`
and `soldAt` as optional fields, those three ARE settable through this
path; `id` and `createdAt` are never changed; any field absent from the
partial input keeps its stored value. -/
theorem update_applies_schema_fields (store : Store) (id : Nat) (u : UpdateInput)
    (doc : ProductDoc) (hfind : findDoc store id = some doc) :
    MongoStorage.updateProduct false store id u
      = (some (MongoStorage.toProduct (applyUpdate doc u)), saveDoc store (applyUpdate doc u))
    ∧ (applyUpdate doc u).id = doc.id
    ∧ (applyUpdate doc u).createdAt = doc.createdAt
    ∧ (applyUpdate doc u).status = u.status.getD doc.status
    ∧ (applyUpdate doc u).secretKey = u.secretKey.getD doc.secretKey
    ∧ (u.status = none → (applyUpdate doc u).status = doc.status)
    ∧ (u.secretKey = none → (applyUpdate doc u).secretKey = doc.secretKey)
    ∧ (u.soldAt = none → (applyUpdate doc u).soldAt = doc.soldAt)
    ∧ (∀ t, u.soldAt = some t → (applyUpdate doc u).soldAt = some t) := by
  refine ⟨?_, rfl, rfl, rfl, rfl, ?_, ?_, ?_, ?_⟩
  · simp [MongoStorage.updateProduct, hfind]
  · intro h
    simp [applyUpdate, h]
  · intro h
    simp [applyUpdate, h]
  · intro h
    simp [applyUpdate, h]
  · intro t h
    simp [applyUpdate, h]

/-- C3 amended witness: the amended Update contract evaluated on the
concrete store with the status-only partial input. -/
theorem update_applies_schema_fields_witness :
    MongoStorage.updateProduct false sampleStore 1 statusOnlyUpdate
      = (some (MongoStorage.toProduct (applyUpdate sampleDoc statusOnlyUpdate)),
         saveDoc sampleStore (applyUpdate sampleDoc statusOnlyUpdate))
    ∧ (applyUpdate sampleDoc statusOnlyUpdate).createdAt = sampleDoc.createdAt
    ∧ (applyUpdate sampleDoc statusOnlyUpdate).secretKey = sampleDoc.secretKey := by
  have h := update_applies_schema_fields sampleStore 1 statusOnlyUpdate sampleDoc rfl
  exact ⟨h.1, h.2.2.1, h.2.2.2.2.2.2.1 rfl⟩

/-- C1 witness: the no-leak facts evaluated concretely — GetById and Update
projections of the sample store carry no `secretKey` key, and the Create
return value carries it exactly once. -/
theorem secret_never_leaks_witness :
    (∀ p, MongoStorage.getProductById sampleStore 1 = some p →
      "secretKey" ∉ (productFields p).map Prod.fst)
    ∧ (∀ p store2,
        MongoStorage.updateProduct false sampleStore 1 emptyUpdate = (some p, store2) →
        "secretKey" ∉ (productFields p).map Prod.fst)
    ∧ ∃ fs store2,
        MongoStorage.createProduct false [] sampleInput "a1b2c3d4e5f6" 10 1 = .ok (fs, store2)
        ∧ (fs.map Prod.fst).count "secretKey" = 1 := by
  obtain ⟨h1, h2, h3, h4, h5⟩ := secret_never_leaks
  refine ⟨fun p hp => h2 sampleStore 1 p hp, fun p store2 hp => h4 false sampleStore 1 emptyUpdate p store2 hp, ?_⟩
  exact ⟨_, _, rfl, h5 [] sampleInput "a1b2c3d4e5f6" 10 1 _ _ rfl⟩

/-- C5: evaluating the deletion-enabled generation at the failing input —
the supplied key differs from the stored secret, yet the listing is
removed with 204 rather than refused with Forbidden; the disabled
generation reports failure while checking and removing nothing. -/
theorem delete_enabled_no_key_check :
    ("wrongwrongwr" : String) ≠ sampleDoc.secretKey
    ∧ deleteRouteEnabled false sampleStore 1 "wrongwrongwr" = (.noContent, [sampleDoc2])
    ∧ MongoStorage.deleteProductDisabled sampleStore 1 "wrongwrongwr" = (false, sampleStore)
    ∧ deleteRouteDisabled sampleStore 1 = (.forbidden, sampleStore) := by
  decide

/-- C7 counterexample: a store-layer error during Update is reported as the
not-found result — byte-for-byte the same answer an absent listing gets —
rather than being propagated as a failure. -/
theorem update_store_error_counterexample :
    findDoc sampleStore 1 = some sampleDoc
    ∧ updateProductRoute true sampleStore 1 emptyUpdate = (.notFound, sampleStore)
    ∧ updateProductRoute false sampleStore 999 emptyUpdate = (.notFound, sampleStore) := by
  decide

/-- C7 amended: store-layer errors on mutating operations reach the caller
as failures — Create rethrows, MarkSold answers a server failure (a store
call, and hence a store error, only occurs once the required-key check has
passed), Delete answers the 403 failure, and the cart mutations, lacking
any try/catch, let the raw exception escape uncaught — never converted
into a success, an empty result, or a not-found result; the single
exception is Update, which converts a store-layer error into the not-found
result, indistinguishable from a missing listing. -/
theorem store_error_propagation (store : Store) (id newId now : Nat)
    (input : InsertInput) (freshSecret key : String) (u : UpdateInput)
    (cstore : CartStore) (sid pid : String) :
    MongoStorage.createProduct true store input freshSecret now newId
      = .error "Failed to create product"
    ∧ (key ≠ "" → markSold true store id key now = (.serverError, store))
    ∧ (key ≠ "" → deleteRouteEnabled true store id key = (.forbidden, store))
    ∧ (pid ≠ "" → addItemRouteE true cstore sid pid = .uncaughtError)
    ∧ removeItemRouteE true cstore sid pid = .uncaughtError
    ∧ updateProductRoute true store id u = (.notFound, store) := by
  refine ⟨rfl, ?_, ?_, ?_, rfl, rfl⟩
  · intro hk
    simp [markSold, hk]
  · intro hk
    simp [deleteRouteEnabled, MongoStorage.deleteProductEnabled, hk]
  · intro hp
    simp [addItemRouteE, hp]

/-- C7 amended witness: the error-propagation contract evaluated on the
concrete stores with concrete nonempty keys and ids. -/
theorem store_error_propagation_witness :
    MongoStorage.createProduct true sampleStore sampleInput "a1b2c3d4e5f6" 10 3
      = .error "Failed to create product"
    ∧ markSold true sampleStore 1 "a1b2c3d4e5f6" 99 = (.serverError, sampleStore)
    ∧ deleteRouteEnabled true sampleStore 1 "somekey" = (.forbidden, sampleStore)
    ∧ addItemRouteE true sampleCartStore "s1" "p1" = .uncaughtError
    ∧ removeItemRouteE true sampleCartStore "s1" "p1" = .uncaughtError
    ∧ updateProductRoute true sampleStore 1 emptyUpdate = (.notFound, sampleStore) := by
  have h := store_error_propagation sampleStore 1 3 10 sampleInput "a1b2c3d4e5f6" "somekey"
    emptyUpdate sampleCartStore "s1" "p1"
  exact ⟨h.1, h.2.1 (by decide), h.2.2.1 (by decide), h.2.2.2.1 (by decide),
    h.2.2.2.2.1, h.2.2.2.2.2⟩

theorem cartKeys_incFirst : ∀ (ps : List CartItem) (pid : String),
    cartKeys (incFirst ps pid) = cartKeys ps
  | [], _ => rfl
  | i :: rest, pid => by
    unfold incFirst
    by_cases h : i.productId == pid
    · rw [if_pos h]
      rfl
    · rw [if_neg h]
      unfold cartKeys
      simp only [List.map_cons]
      rw [show (incFirst rest pid).map (fun i => i.productId) = cartKeys (incFirst rest pid) from rfl,
          cartKeys_incFirst rest pid]
      rfl

theorem addToProducts_nodup (ps : List CartItem) (pid : String)
    (h : (cartKeys ps).Nodup) : (cartKeys (addToProducts ps pid)).Nodup := by
  unfold addToProducts
  by_cases hany : ps.any (fun i => i.productId == pid)
  · rw [if_pos hany, cartKeys_incFirst]
    exact h
  · rw [if_neg hany]
    unfold cartKeys
    rw [List.map_append]
    have hnotin : pid ∉ ps.map (fun i => i.productId) := by
      intro hmem
      rcases List.mem_map.mp hmem with ⟨i, hi, hpi⟩
      exact hany (List.any_eq_true.mpr ⟨i, hi, by simp [hpi]⟩)
    refine List.Nodup.append h (List.nodup_singleton _) ?_
    intro a ha hb
    simp only [List.map_cons, List.map_nil, List.mem_singleton] at hb
    subst hb
    exact hnotin ha

theorem findCart_save_append (store : CartStore) (sid : String) (c2 : Cart)
    (hnone : findCart store sid = none) (hsid : c2.sessionId = sid) :
    findCart (saveCart (store ++ [(⟨sid, []⟩ : Cart)]) c2) sid = some c2 := by
  unfold findCart saveCart
  rw [List.map_append, List.find?_append]
  have hstore : ∀ d ∈ store, (d.sessionId == sid) = false := by
    intro d hd
    have := List.find?_eq_none.mp hnone d hd
    simpa using this
  have hmap : store.map (fun d => if d.sessionId == c2.sessionId then c2 else d) = store := by
    have hcong : ∀ d ∈ store,
        (if d.sessionId == c2.sessionId then c2 else d) = id d := by
      intro d hd
      rw [hsid, if_neg (by simp [hstore d hd])]
      rfl
    rw [List.map_congr_left hcong, List.map_id]
  rw [hmap]
  have hnone2 : store.find? (fun c => c.sessionId == sid) = none := hnone
  rw [hnone2]
  simp [hsid]

/-- C6: cart items stay duplicate-free and AddItem merges: adding to an
existing cart with duplicate-free keys keeps them duplicate-free, while
two sequential AddItem calls for a fresh session produce a single entry
with quantity 2, not two entries. -/
theorem cart_add_merge (store : CartStore) (sid pid : String) (hpid : pid ≠ "") :
    (∀ c, findCart store sid = some c → (cartKeys c.products).Nodup →
      addItemRoute store sid pid
        = (.created { c with products := addToProducts c.products pid },
           saveCart store { c with products := addToProducts c.products pid })
      ∧ (cartKeys (addToProducts c.products pid)).Nodup)
    ∧ (findCart store sid = none →
        addItemRoute store sid pid
          = (.created ⟨sid, [⟨pid, 1⟩]⟩, saveCart (store ++ [⟨sid, []⟩]) ⟨sid, [⟨pid, 1⟩]⟩)
        ∧ (addItemRoute (saveCart (store ++ [⟨sid, []⟩]) ⟨sid, [⟨pid, 1⟩]⟩) sid pid).fst
            = .created ⟨sid, [⟨pid, 2⟩]⟩) := by
  constructor
  · intro c hc hnodup
    constructor
    · simp [addItemRoute, if_neg hpid, getOrCreateCart, hc]
    · exact addToProducts_nodup c.products pid hnodup
  · intro hc
    have hadd0 : addToProducts [] pid = [⟨pid, 1⟩] := by
      simp [addToProducts]
    have hbump : addToProducts [⟨pid, 1⟩] pid = [⟨pid, 2⟩] := by
      simp [addToProducts, incFirst]
    constructor
    · simp [addItemRoute, if_neg hpid, getOrCreateCart, hc, hadd0]
    · have hfind2 : findCart (saveCart (store ++ [⟨sid, []⟩]) ⟨sid, [⟨pid, 1⟩]⟩) sid
          = some ⟨sid, [⟨pid, 1⟩]⟩ := findCart_save_append store sid _ hc rfl
      simp [addItemRoute, if_neg hpid, getOrCreateCart, hfind2, hbump]

/-- C6 witness: two sequential AddItem calls for a fresh session evaluated
concretely — one entry with quantity 2. -/
theorem cart_add_merge_witness :
    addItemRoute ([] : CartStore) "s9" "p9"
      = (.created ⟨"s9", [⟨"p9", 1⟩]⟩, saveCart ([] ++ [⟨"s9", []⟩]) ⟨"s9", [⟨"p9", 1⟩]⟩)
    ∧ (addItemRoute (saveCart (([] : CartStore) ++ [⟨"s9", []⟩]) ⟨"s9", [⟨"p9", 1⟩]⟩) "s9" "p9").fst
        = .created ⟨"s9", [⟨"p9", 2⟩]⟩ :=
  (cart_add_merge [] "s9" "p9" (by decide)).2 rfl

/-- C8: RemoveItem answers not-found when the session has no cart; when the
cart exists but the listing is absent it succeeds and returns the cart
unchanged; when present, every matching entry is removed. -/
theorem cart_remove_modes (store : CartStore) (sid pid : String) :
    (findCart store sid = none → removeItemRoute store sid pid = (.notFound, store))
    ∧ (∀ c, findCart store sid = some c → pid ∉ cartKeys c.products →
        removeItemRoute store sid pid = (.ok c, saveCart store c))
    ∧ (∀ c, findCart store sid = some c →
        removeItemRoute store sid pid
          = (.ok { c with products := c.products.filter (fun i => !(i.productId == pid)) },
             saveCart store { c with products := c.products.filter (fun i => !(i.productId == pid)) })
        ∧ pid ∉ cartKeys (c.products.filter (fun i => !(i.productId == pid)))) := by
  have hmain : ∀ c, findCart store sid = some c →
      removeItemRoute store sid pid
        = (.ok { c with products := c.products.filter (fun i => !(i.productId == pid)) },
           saveCart store { c with products := c.products.filter (fun i => !(i.productId == pid)) }) := by
    intro c hc
    simp [removeItemRoute, hc]
  refine ⟨?_, ?_, ?_⟩
  · intro h
    simp [removeItemRoute, h]
  · intro c hc habs
    have hfilter : c.products.filter (fun i => !(i.productId == pid)) = c.products := by
      refine List.filter_eq_self.mpr ?_
      intro i hi
      have hne : i.productId ≠ pid := fun he => habs (List.mem_map.mpr ⟨i, hi, he⟩)
      simp [hne]
    have h2 := hmain c hc
    rw [hfilter] at h2
    exact h2
  · intro c hc
    refine ⟨hmain c hc, ?_⟩
    intro hmem
    rcases List.mem_map.mp hmem with ⟨i, hi, hpi⟩
    have hkeep := (List.mem_filter.mp hi).2
    simp [hpi] at hkeep

/-- C8 witness: the three RemoveItem modes evaluated concretely — missing
cart, absent listing (no-op), and present listing. -/
theorem cart_remove_modes_witness :
    removeItemRoute ([] : CartStore) "s1" "p1" = (.notFound, [])
    ∧ removeItemRoute sampleCartStore "s1" "zzz"
        = (.ok ⟨"s1", [⟨"p1", 1⟩, ⟨"p2", 3⟩]⟩, saveCart sampleCartStore ⟨"s1", [⟨"p1", 1⟩, ⟨"p2", 3⟩]⟩)
    ∧ removeItemRoute sampleCartStore "s1" "p1"
        = (.ok ⟨"s1", [⟨"p2", 3⟩]⟩, saveCart sampleCartStore ⟨"s1", [⟨"p2", 3⟩]⟩) := by
  have h0 := cart_remove_modes ([] : CartStore) "s1" "p1"
  have h1 := cart_remove_modes sampleCartStore "s1" "zzz"
  have h2 := cart_remove_modes sampleCartStore "s1" "p1"
  exact ⟨h0.1 rfl, h1.2.1 ⟨"s1", [⟨"p1", 1⟩, ⟨"p2", 3⟩]⟩ rfl (by decide),
    (h2.2.2 ⟨"s1", [⟨"p1", 1⟩, ⟨"p2", 3⟩]⟩ rfl).1⟩

/-- C9: GetOrCreate returns the existing Cart for the session unchanged, or
inserts and returns a fresh empty Cart when none exists; it is a total
operation that never fails. -/
theorem cart_get_or_create (store : CartStore) (sid : String) :
    (∃ c, findCart store sid = some c ∧ getOrCreateCart store sid = (c, store))
    ∨ (findCart store sid = none
        ∧ getOrCreateCart store sid = (⟨sid, []⟩, store ++ [⟨sid, []⟩])
        ∧ (getOrCreateCart store sid).fst.products = []) := by
  cases h : findCart store sid with
  | some c => exact Or.inl ⟨c, rfl, by simp [getOrCreateCart, h]⟩
  | none => exact Or.inr ⟨rfl, by simp [getOrCreateCart, h], by simp [getOrCreateCart, h]⟩

end CampusKart
